import Mathlib

/-!
Verification development for the mission workflow script
(`execute_mission_workflow.py`).  The script selects the next mission from a
SQLite store with a two-tier priority query, starts it, simulates work, and
completes it.  The SQLite rows are modelled as a list of `Mission` records
(the list order plays no role; each row carries its own `rowid`), and the two
`SELECT ... ORDER BY ... LIMIT 1` queries are modelled as a minimum search
over the filtered rows with a lexicographic (rank, rowid) key.
-/

/-- A row of the `missions` table: `rowid` (SQLite insertion order),
`id` and `status` columns, as read by the selection queries. -/
structure Mission where
  rowid : Nat
  id : String
  status : String
deriving DecidableEq

/-- Result of `SQLiteClient.health_check()` as consumed by the script:
an `ok` flag and a diagnostic message. -/
structure HealthStatus where
  ok : Bool
  message : String
deriving DecidableEq

/-- The status strings of the `WHERE status IN (Queued, Not Started)`
filter of `new_work_query`. -/
def newWorkStatusFilter : List String := ["Queued", "Not Started"]

/-- The status strings of the `WHERE status IN (In Progress, Current)`
filter of `active_query`. -/
def activeStatusFilter : List String := ["In Progress", "Current"]

/-- Row filter of `new_work_query`. -/
def inNewTier (m : Mission) : Bool := newWorkStatusFilter.contains m.status

/-- Row filter of `active_query`. -/
def inActiveTier (m : Mission) : Bool := activeStatusFilter.contains m.status

/-- The `CASE status WHEN Queued THEN 0 WHEN Not Started THEN 1 END`
rank of `new_work_query` (only applied to rows passing the filter). -/
def newWorkRank (s : String) : Nat := if s = "Queued" then 0 else 1

/-- The `CASE status WHEN In Progress THEN 0 WHEN Current THEN 1 END`
rank of `active_query`. -/
def activeRank (s : String) : Nat := if s = "In Progress" then 0 else 1

/-- Strict lexicographic order on (rank, rowid) keys, the `ORDER BY` order. -/
def keyLt (a b : Nat × Nat) : Bool :=
  a.1 < b.1 || (a.1 == b.1 && a.2 < b.2)

/-- `ORDER BY key LIMIT 1`: the row with the least key among the given rows
(first such row when keys tie). -/
def argminBy (key : Mission → Nat × Nat) : List Mission → Option Mission
  | [] => none
  | m :: ms =>
    match argminBy key ms with
    | none => some m
    | some mm => if keyLt (key mm) (key m) then some mm else some m

/-- `new_work_query` (lines 37-45): queued or not-started rows, ordered by
status rank then rowid, first row. -/
def newWorkQuery (store : List Mission) : Option Mission :=
  argminBy (fun m => (newWorkRank m.status, m.rowid)) (store.filter inNewTier)

/-- `active_query` (lines 48-56): in-progress or current rows, ordered by
status rank then rowid, first row. -/
def activeQuery (store : List Mission) : Option Mission :=
  argminBy (fun m => (activeRank m.status, m.rowid)) (store.filter inActiveTier)

/-- Candidate selection of the script (lines 58-64): the new-work query,
falling back to the active query only when the former returns no row. -/
def nextCandidate (store : List Mission) : Option Mission :=
  match newWorkQuery store with
  | some m => some m
  | none => activeQuery store

/-- The status vocabulary enumerated by the spec (section 3), stated here
only to compare it with the status strings of the selection queries. -/
def specEnumeratedStatusTokens : List String :=
  ["NotStarted", "Queued", "InProgress", "Current", "Completed"]

/-- A status string with its spaces removed, relating the persisted
vocabulary to the spec tokens. -/
def despace (s : String) : String := String.mk (s.toList.filter (fun c => c != ' '))

/-- An immutable audit record of a lifecycle transition (spec section 3):
mission id, transition kind, acting agent, summary, optional notes. -/
structure MissionEvent where
  missionId : String
  kind : String
  agent : String
  summary : String
  notes : Option String
deriving DecidableEq

/-- The status write of a lifecycle transition: every row whose id matches
gets the new status (an `UPDATE missions SET status WHERE id` shape). -/
def setStatus (store : List Mission) (missionId status : String) : List Mission :=
  store.map (fun m => if m.id = missionId then { m with status := status } else m)

/-- The statuses from which a start is legal (spec section 4.3). -/
def startableStatuses : List String :=
  ["Queued", "Not Started", "In Progress", "Current"]

/-- Modelled from the spec: `MissionRuntime.start_mission` lives in
`cmos/context/mission_runtime.py`, which the script imports but which is not
among the sources.  Per spec section 4.3, start requires the mission to
exist with a non-Completed status, sets the status to the persisted active
status and returns the Started event; a missing mission or an illegal
status is an error. -/
def start_mission (store : List Mission) (missionId agent summary : String) :
    Except String (List Mission × MissionEvent) :=
  match store.find? (fun m => m.id == missionId) with
  | none => .error ("NotFound: " ++ missionId)
  | some m =>
    if startableStatuses.contains m.status then
      .ok (setStatus store missionId "In Progress",
        ⟨missionId, "Started", agent, summary, none⟩)
    else
      .error ("InvalidTransition: cannot start " ++ missionId ++ " from " ++ m.status)

/-- Modelled from the spec: `MissionRuntime.complete_mission` lives in
`cmos/context/mission_runtime.py`, which the script imports but which is not
among the sources.  Per spec section 4.3, complete requires an active
status, sets the status to Completed, persists the Completed event with the
given summary and notes, and re-runs candidate selection on the updated
store to report the optional next mission id. -/
def complete_mission (store : List Mission) (missionId agent summary notes : String) :
    Except String (List Mission × MissionEvent × Option String) :=
  match store.find? (fun m => m.id == missionId) with
  | none => .error ("NotFound: " ++ missionId)
  | some m =>
    if activeStatusFilter.contains m.status then
      .ok (setStatus store missionId "Completed",
        ⟨missionId, "Completed", agent, summary, some notes⟩,
        (nextCandidate (setStatus store missionId "Completed")).map Mission.id)
    else
      .error ("InvalidTransition: cannot complete " ++ missionId ++ " from " ++ m.status)

/-- Whether the first list of characters is an initial segment of the second. -/
def startsWithChars : List Char → List Char → Bool
  | [], _ => true
  | _ :: _, [] => false
  | a :: as, b :: bs => a == b && startsWithChars as bs

/-- Whether the first list of characters occurs contiguously in the second. -/
def occursInChars (needle : List Char) : List Char → Bool
  | [] => startsWithChars needle []
  | c :: cs => startsWithChars needle (c :: cs) || occursInChars needle cs

/-- The Python `needle in hay` substring test on strings. -/
def strContains (hay needle : String) : Bool :=
  occursInChars needle.toList hay.toList

/-- The simulated work of step 4 (lines 119-139): a summary chosen by
substring tests on the lowercased mission id, in fixed precedence order. -/
def work_summary (missionId : String) : String :=
  if strContains missionId.toLower "foundation" then
    "Implemented foundation utilities with 100% test coverage"
  else if strContains missionId.toLower "data-protocol" then
    "Completed data protocol implementation with validation"
  else if strContains missionId.toLower "test-suite" then
    "Completed test suite with 100% coverage"
  else
    "Completed mission work"

/-- The externally visible actions of one run, in execution order. -/
inductive RunAction where
  | healthProbe
  | selectNew
  | selectActive
  | startCall (missionId : String)
  | verifyNext (found : Option String)
  | workExec (missionId : String)
  | completeCall (missionId : String)
  | reportNext (next : Option String)
deriving DecidableEq

/-- What one run of `main` did: resource bookkeeping, the action list, the
caught error messages, and the mission actually started and completed with
the summary passed to complete. -/
structure Trace where
  clientCreated : Bool
  clientClosed : Bool
  runtimeCreated : Bool
  runtimeClosed : Bool
  actions : List RunAction
  errors : List String
  startedId : Option String
  completedId : Option String
  summaryUsed : Option String
deriving DecidableEq

/-- The external world of one run: whether the client constructor raises
`DatabaseUnavailable`, the health probe result, the mission rows, whether
either selection query raises, whether the runtime setup raises
`MissionRuntimeError` before the start call, and whether the verification
read after a successful start (line 102) raises `MissionRuntimeError`. -/
structure Env where
  connectError : Option String
  health : HealthStatus
  store : List Mission
  newQueryError : Option String
  activeQueryError : Option String
  runtimeError : Option String
  verifyError : Option String
deriving DecidableEq

/-- The empty trace at the beginning of a run. -/
def emptyTrace : Trace :=
  ⟨false, false, false, false, [], [], none, none, none⟩

/-- Step 5 of the script (lines 142-160): complete the mission with the work
summary and fixed notes, report the optional next mission, and close the
runtime in a `finally`. -/
def completePhase (store1 : List Mission) (missionId : String) (t : Trace) :
    Nat × Trace :=
  let ws := work_summary missionId
  match complete_mission store1 missionId "Code Agent" ws
      ("Mission " ++ missionId ++ " completed successfully. " ++ ws) with
  | .error e =>
    (1, { t with
      actions := t.actions ++ [RunAction.completeCall missionId],
      errors := t.errors ++ [e],
      runtimeClosed := true })
  | .ok (_, _, next) =>
    (0, { t with
      actions := t.actions ++ [RunAction.completeCall missionId, RunAction.reportNext next],
      completedId := some missionId,
      summaryUsed := some ws,
      runtimeClosed := true })

/-- Step 4 of the script (lines 112-140): the simulated work, which cannot
fail and only chooses the summary. -/
def workPhase (store1 : List Mission) (missionId : String) (t : Trace) :
    Nat × Trace :=
  completePhase store1 missionId
    { t with actions := t.actions ++ [RunAction.workExec missionId] }

/-- Step 3 of the script (lines 84-110): create the runtime, ensure the
database, start the mission and verify the current candidate through
`fetch_next_candidate` (line 102); a `MissionRuntimeError` from any of these
returns 1 with no `finally` around the runtime, including one raised by the
verification read after the start call already succeeded. -/
def startPhase (env : Env) (missionId : String) (t : Trace) : Nat × Trace :=
  let t1 := { t with runtimeCreated := true }
  match env.runtimeError with
  | some e => (1, { t1 with errors := t1.errors ++ [e] })
  | none =>
    match start_mission env.store missionId "Code Agent"
        ("Starting mission " ++ missionId) with
    | .error e =>
      (1, { t1 with
        actions := t1.actions ++ [RunAction.startCall missionId],
        errors := t1.errors ++ [e] })
    | .ok (store1, _) =>
      let t2 := { t1 with
        actions := t1.actions ++ [RunAction.startCall missionId],
        startedId := some missionId }
      match env.verifyError with
      | some e => (1, { t2 with errors := t2.errors ++ [e] })
      | none =>
        workPhase store1 missionId
          { t2 with
            actions := t2.actions ++
              [RunAction.verifyNext ((nextCandidate store1).map Mission.id)] }

/-- Step 2 of the script (lines 58-82): the two selection queries inside a
try whose `finally` closes the client on every path; no row returns 1. -/
def selectionPhase (env : Env) (t : Trace) : Nat × Trace :=
  match env.newQueryError with
  | some e => (1, { t with errors := t.errors ++ [e], clientClosed := true })
  | none =>
    let t1 := { t with actions := t.actions ++ [RunAction.selectNew] }
    match newWorkQuery env.store with
    | some m => startPhase env m.id { t1 with clientClosed := true }
    | none =>
      match env.activeQueryError with
      | some e => (1, { t1 with errors := t1.errors ++ [e], clientClosed := true })
      | none =>
        let t2 := { t1 with actions := t1.actions ++ [RunAction.selectActive] }
        match activeQuery env.store with
        | some m => startPhase env m.id { t2 with clientClosed := true }
        | none => (1, { t2 with clientClosed := true })

/-- The `main` function of the script (lines 16-163): step 1 connects and
probes health (returning 1 on `DatabaseUnavailable` or a failed probe, with
no `finally` in this step), then the later phases run. -/
def mainRun (env : Env) : Nat × Trace :=
  match env.connectError with
  | some e => (1, { emptyTrace with errors := [e] })
  | none =>
    let t := { emptyTrace with
      clientCreated := true, actions := [RunAction.healthProbe] }
    if env.health.ok then
      selectionPhase env t
    else
      (1, { t with errors := [env.health.message] })

/-- Whether an action is a start call. -/
def isStartCall : RunAction → Bool
  | .startCall _ => true
  | _ => false

/-- Whether an action is a complete call. -/
def isCompleteCall : RunAction → Bool
  | .completeCall _ => true
  | _ => false

/-- Number of start calls in an action list. -/
def countStartCalls (l : List RunAction) : Nat := l.countP isStartCall

/-- Number of complete calls in an action list. -/
def countCompleteCalls (l : List RunAction) : Nat := l.countP isCompleteCall

/-- A store whose only mission is Completed, with a healthy connection. -/
def envNoMissionCase : Env :=
  ⟨none, ⟨true, "ok"⟩, [⟨1, "A", "Completed"⟩], none, none, none, none⟩

/-- A healthy environment with one queued mission, on which the whole run
succeeds. -/
def envSuccessCase : Env :=
  ⟨none, ⟨true, "ok"⟩, [⟨1, "mission-foundation-1", "Queued"⟩], none, none, none, none⟩

/-- A second healthy environment completing the same mission id, with a
different store and health message. -/
def envSuccessCase2 : Env :=
  ⟨none, ⟨true, "healthy"⟩,
    [⟨1, "mission-foundation-1", "Queued"⟩, ⟨2, "x", "Completed"⟩], none, none, none, none⟩

/-- An environment whose health probe reports not ok. -/
def envHealthFailCase : Env :=
  ⟨none, ⟨false, "corrupt"⟩, [], none, none, none, none⟩

/-- An environment where the runtime raises before the start call. -/
def envRuntimeFailCase : Env :=
  ⟨none, ⟨true, "ok"⟩, [⟨1, "A", "Queued"⟩], none, none, some "database is locked", none⟩

/-- An environment where the verification read raises after a successful
start. -/
def envVerifyFailCase : Env :=
  ⟨none, ⟨true, "ok"⟩, [⟨1, "A", "Queued"⟩], none, none, none,
    some "database is locked"⟩

theorem keyLt_irrefl (a : Nat × Nat) : keyLt a a = false := by
  simp [keyLt]

theorem keyLt_asymm {a b : Nat × Nat} (h : keyLt a b = true) : keyLt b a = false := by
  simp [keyLt] at h ⊢
  omega

theorem keyLt_false_trans {a b c : Nat × Nat}
    (hab : keyLt a b = false) (hbc : keyLt b c = false) : keyLt a c = false := by
  simp [keyLt] at hab hbc ⊢
  omega

theorem argminBy_cons_none {key : Mission → Nat × Nat} {as : List Mission} {a : Mission}
    (h : argminBy key as = none) : argminBy key (a :: as) = some a := by
  simp [argminBy, h]

theorem argminBy_cons_some {key : Mission → Nat × Nat} {as : List Mission} {a mm : Mission}
    (h : argminBy key as = some mm) :
    argminBy key (a :: as) =
      if keyLt (key mm) (key a) then some mm else some a := by
  simp [argminBy, h]

theorem argminBy_eq_none {key : Mission → Nat × Nat} {l : List Mission} :
    argminBy key l = none ↔ l = [] := by
  cases l with
  | nil => simp [argminBy]
  | cons a as =>
    cases h : argminBy key as with
    | none =>
      rw [argminBy_cons_none h]
      simp
    | some mm =>
      rw [argminBy_cons_some h]
      by_cases hlt : keyLt (key mm) (key a) = true
      · simp [hlt]
      · simp [hlt]

theorem argminBy_mem {key : Mission → Nat × Nat} {l : List Mission} {m : Mission}
    (h : argminBy key l = some m) : m ∈ l := by
  induction l generalizing m with
  | nil => simp [argminBy] at h
  | cons a as ih =>
    cases hr : argminBy key as with
    | none =>
      rw [argminBy_cons_none hr] at h
      simp at h
      simp [h]
    | some mm =>
      rw [argminBy_cons_some hr] at h
      by_cases hlt : keyLt (key mm) (key a) = true
      · rw [if_pos hlt] at h
        simp at h
        subst h
        exact List.mem_cons_of_mem a (ih hr)
      · rw [if_neg hlt] at h
        simp at h
        simp [h]

theorem argminBy_min {key : Mission → Nat × Nat} {l : List Mission} {m : Mission}
    (h : argminBy key l = some m) :
    ∀ x ∈ l, keyLt (key x) (key m) = false := by
  induction l generalizing m with
  | nil => simp [argminBy] at h
  | cons a as ih =>
    intro x hx
    cases hr : argminBy key as with
    | none =>
      rw [argminBy_cons_none hr] at h
      simp at h
      subst h
      have hnil : as = [] := argminBy_eq_none.mp hr
      subst hnil
      simp at hx
      subst hx
      exact keyLt_irrefl _
    | some mm =>
      rw [argminBy_cons_some hr] at h
      rcases List.mem_cons.mp hx with hxa | hxas
      · subst hxa
        by_cases hlt : keyLt (key mm) (key x) = true
        · rw [if_pos hlt] at h
          simp at h
          subst h
          exact keyLt_asymm hlt
        · rw [if_neg hlt] at h
          simp at h
          subst h
          exact keyLt_irrefl _
      · by_cases hlt : keyLt (key mm) (key a) = true
        · rw [if_pos hlt] at h
          simp at h
          subst h
          exact ih hr x hxas
        · rw [if_neg hlt] at h
          simp at h
          subst h
          have hxmm := ih hr x hxas
          exact keyLt_false_trans hxmm (by simpa using hlt)

theorem inNewTier_iff {m : Mission} :
    inNewTier m = true ↔ (m.status = "Queued" ∨ m.status = "Not Started") := by
  simp [inNewTier, newWorkStatusFilter]

theorem inActiveTier_iff {m : Mission} :
    inActiveTier m = true ↔ (m.status = "In Progress" ∨ m.status = "Current") := by
  simp [inActiveTier, activeStatusFilter]

theorem newWorkQuery_mem {store : List Mission} {c : Mission}
    (h : newWorkQuery store = some c) : c ∈ store ∧ inNewTier c = true := by
  have hmem := argminBy_mem h
  exact ⟨(List.mem_filter.mp hmem).1, (List.mem_filter.mp hmem).2⟩

theorem activeQuery_mem {store : List Mission} {c : Mission}
    (h : activeQuery store = some c) : c ∈ store ∧ inActiveTier c = true := by
  have hmem := argminBy_mem h
  exact ⟨(List.mem_filter.mp hmem).1, (List.mem_filter.mp hmem).2⟩

theorem newWorkQuery_isSome {store : List Mission} {m : Mission}
    (hm : m ∈ store) (hnew : inNewTier m = true) :
    ∃ c, newWorkQuery store = some c := by
  cases h : newWorkQuery store with
  | some c => exact ⟨c, rfl⟩
  | none =>
    have hnil : store.filter inNewTier = [] := argminBy_eq_none.mp h
    have : m ∈ store.filter inNewTier := List.mem_filter.mpr ⟨hm, hnew⟩
    rw [hnil] at this
    simp at this

theorem nextCandidate_cases {store : List Mission} {c : Mission}
    (h : nextCandidate store = some c) :
    newWorkQuery store = some c ∨
      (newWorkQuery store = none ∧ activeQuery store = some c) := by
  unfold nextCandidate at h
  cases hq : newWorkQuery store with
  | some m =>
    rw [hq] at h
    simp at h
    subst h
    exact Or.inl rfl
  | none =>
    rw [hq] at h
    exact Or.inr ⟨rfl, h⟩

theorem nextCandidate_status {store : List Mission} {c : Mission}
    (h : nextCandidate store = some c) :
    c ∈ store ∧ (inNewTier c = true ∨ inActiveTier c = true) := by
  rcases nextCandidate_cases h with hq | ⟨_, hq⟩
  · exact ⟨(newWorkQuery_mem hq).1, Or.inl (newWorkQuery_mem hq).2⟩
  · exact ⟨(activeQuery_mem hq).1, Or.inr (activeQuery_mem hq).2⟩

/-- Claim C1: whenever some mission in the store has a new-work status
(Queued or Not Started), the selected candidate comes from the new-work
tier and is not an active-tier mission. -/
theorem claim_C1_two_tier_priority (store : List Mission) (m : Mission)
    (hm : m ∈ store) (hnew : inNewTier m = true) :
    ∃ c, nextCandidate store = some c ∧ inNewTier c = true ∧ inActiveTier c = false := by
  obtain ⟨c, hc⟩ := newWorkQuery_isSome hm hnew
  refine ⟨c, ?_, (newWorkQuery_mem hc).2, ?_⟩
  · unfold nextCandidate
    rw [hc]
  · have hcnew := (newWorkQuery_mem hc).2
    rcases inNewTier_iff.mp hcnew with hs | hs
    · cases hact : inActiveTier c with
      | false => rfl
      | true =>
        rcases inActiveTier_iff.mp hact with hs2 | hs2 <;> rw [hs] at hs2 <;> simp at hs2
    · cases hact : inActiveTier c with
      | false => rfl
      | true =>
        rcases inActiveTier_iff.mp hact with hs2 | hs2 <;> rw [hs] at hs2 <;> simp at hs2

/-- Witness for claim C1 at a concrete store. -/
theorem claim_C1_two_tier_priority_witness :
    ∃ c, nextCandidate [⟨1, "A", "In Progress"⟩, ⟨2, "B", "Not Started"⟩] = some c ∧
      inNewTier c = true ∧ inActiveTier c = false :=
  claim_C1_two_tier_priority _ ⟨2, "B", "Not Started"⟩ (by simp) (by decide)

theorem keyLt_eq_false_iff {a b : Nat × Nat} :
    keyLt a b = false ↔ (b.1 ≤ a.1 ∧ (a.1 = b.1 → b.2 ≤ a.2)) := by
  simp [keyLt]

theorem newWorkRank_eq_zero {s : String} : newWorkRank s = 0 ↔ s = "Queued" := by
  unfold newWorkRank
  by_cases h : s = "Queued" <;> simp [h]

theorem activeRank_eq_zero {s : String} : activeRank s = 0 ↔ s = "In Progress" := by
  unfold activeRank
  by_cases h : s = "In Progress" <;> simp [h]

/-- Claim C2: within the new-work tier every Queued mission outranks every
Not Started one, within the active tier every In Progress mission outranks
every Current one, and within a status the smallest rowid wins. -/
theorem claim_C2_within_tier_order (store : List Mission) (m mq : Mission) :
    (newWorkQuery store = some m → mq ∈ store → inNewTier mq = true →
      (mq.status = "Queued" → m.status = "Queued") ∧
      (mq.status = m.status → m.rowid ≤ mq.rowid)) ∧
    (activeQuery store = some m → mq ∈ store → inActiveTier mq = true →
      (mq.status = "In Progress" → m.status = "In Progress") ∧
      (mq.status = m.status → m.rowid ≤ mq.rowid)) := by
  constructor
  · intro h hmem htier
    have hmin := argminBy_min h mq (List.mem_filter.mpr ⟨hmem, htier⟩)
    rw [keyLt_eq_false_iff] at hmin
    constructor
    · intro hq
      have h0 : newWorkRank m.status = 0 := by
        have := hmin.1
        simp [newWorkRank_eq_zero.mpr hq] at this
        exact this
      exact newWorkRank_eq_zero.mp h0
    · intro heq
      exact hmin.2 (by rw [heq])
  · intro h hmem htier
    have hmin := argminBy_min h mq (List.mem_filter.mpr ⟨hmem, htier⟩)
    rw [keyLt_eq_false_iff] at hmin
    constructor
    · intro hq
      have h0 : activeRank m.status = 0 := by
        have := hmin.1
        simp [activeRank_eq_zero.mpr hq] at this
        exact this
      exact activeRank_eq_zero.mp h0
    · intro heq
      exact hmin.2 (by rw [heq])

/-- Witness for claim C2 at a concrete store: the Queued row B is selected
over the Not Started row A, and the In Progress row D over the Current row C. -/
theorem claim_C2_within_tier_order_witness :
    (⟨2, "B", "Queued"⟩ : Mission).status = "Queued" ∧
      (⟨4, "D", "In Progress"⟩ : Mission).status = "In Progress" := by
  have hstore :
      newWorkQuery [⟨1, "A", "Not Started"⟩, ⟨2, "B", "Queued"⟩,
          ⟨3, "C", "Current"⟩, ⟨4, "D", "In Progress"⟩] = some ⟨2, "B", "Queued"⟩ := by
    decide
  have hstore2 :
      activeQuery [⟨1, "A", "Not Started"⟩, ⟨2, "B", "Queued"⟩,
          ⟨3, "C", "Current"⟩, ⟨4, "D", "In Progress"⟩] = some ⟨4, "D", "In Progress"⟩ := by
    decide
  have h1 := (claim_C2_within_tier_order _ ⟨2, "B", "Queued"⟩ ⟨2, "B", "Queued"⟩).1
    hstore (by simp) (by decide)
  have h2 := (claim_C2_within_tier_order _ ⟨4, "D", "In Progress"⟩ ⟨4, "D", "In Progress"⟩).2
    hstore2 (by simp) (by decide)
  exact ⟨h1.1 rfl, h2.1 rfl⟩

/-- Claim C9: any mission returned by candidate selection has one of the four
tier statuses; in particular a Completed row is never selected. -/
theorem claim_C9_selected_status (store : List Mission) (m : Mission)
    (h : nextCandidate store = some m) :
    m.status ∈ (["Queued", "Not Started", "In Progress", "Current"] : List String) ∧
      m.status ≠ "Completed" := by
  obtain ⟨-, htier⟩ := nextCandidate_status h
  have hmem : m.status ∈ (["Queued", "Not Started", "In Progress", "Current"] : List String) := by
    rcases htier with ht | ht
    · rcases inNewTier_iff.mp ht with hs | hs <;> simp [hs]
    · rcases inActiveTier_iff.mp ht with hs | hs <;> simp [hs]
  refine ⟨hmem, ?_⟩
  intro hc
  rw [hc] at hmem
  simp at hmem

/-- Witness for claim C9 at a concrete store containing a Completed row. -/
theorem claim_C9_selected_status_witness :
    ("Current" : String) ∈ (["Queued", "Not Started", "In Progress", "Current"] : List String) ∧
      ("Current" : String) ≠ "Completed" :=
  claim_C9_selected_status [⟨1, "A", "Completed"⟩, ⟨2, "B", "Current"⟩]
    ⟨2, "B", "Current"⟩ (by decide)

/-- Counterexample to claim C8: the query filters match the strings
"Not Started" and "In Progress", which are not among the enumerated tokens,
and the token "Completed" appears in no selection filter. -/
theorem claim_C8_counterexample :
    ("Not Started" : String) ∈ newWorkStatusFilter ∧
      ("Not Started" : String) ∉ specEnumeratedStatusTokens ∧
      ("In Progress" : String) ∈ activeStatusFilter ∧
      ("In Progress" : String) ∉ specEnumeratedStatusTokens ∧
      ("Completed" : String) ∉ newWorkStatusFilter ++ activeStatusFilter := by
  decide

/-- Claim C8 amended: the selection filters match exactly the persisted
strings Queued, Not Started, In Progress and Current; after removing spaces
these are exactly the enumerated tokens other than Completed, and Completed
itself is filtered by no selection query. -/
theorem claim_C8_amended_vocabulary :
    (∀ s ∈ newWorkStatusFilter ++ activeStatusFilter,
        despace s ∈ specEnumeratedStatusTokens ∧ despace s ≠ "Completed") ∧
    (∀ t ∈ specEnumeratedStatusTokens, t ≠ "Completed" →
        ∃ s ∈ newWorkStatusFilter ++ activeStatusFilter, despace s = t) ∧
    ("Completed" : String) ∉ newWorkStatusFilter ++ activeStatusFilter := by
  decide

theorem setStatus_status {store : List Mission} {missionId status : String} :
    ∀ m ∈ setStatus store missionId status, m.id = missionId → m.status = status := by
  intro m hm hid
  unfold setStatus at hm
  rcases List.mem_map.mp hm with ⟨x, -, hx⟩
  by_cases hxid : x.id = missionId
  · rw [if_pos hxid] at hx
    rw [← hx]
  · rw [if_neg hxid] at hx
    rw [← hx] at hid
    exact absurd hid hxid

/-- Claim C4: a successful complete call carries the Completed event with the
given fields, its next-mission id is computed by re-running candidate
selection on the store after the status write, and in particular the
just-completed mission id is never reported as the next mission. -/
theorem claim_C4_complete_reports_next (store store2 : List Mission)
    (missionId agent summary notes : String) (ev : MissionEvent) (next : Option String)
    (h : complete_mission store missionId agent summary notes = .ok (store2, ev, next)) :
    ev = ⟨missionId, "Completed", agent, summary, some notes⟩ ∧
      store2 = setStatus store missionId "Completed" ∧
      next = (nextCandidate store2).map Mission.id ∧
      ∀ nid, next = some nid → nid ≠ missionId := by
  unfold complete_mission at h
  split at h
  · exact Except.noConfusion h
  · split at h
    · simp only [Except.ok.injEq, Prod.mk.injEq] at h
      obtain ⟨h1, h2, h3⟩ := h
      subst h1
      subst h2
      subst h3
      refine ⟨rfl, rfl, rfl, ?_⟩
      intro nid hnid
      cases hn : nextCandidate (setStatus store missionId "Completed") with
      | none => rw [hn] at hnid; simp at hnid
      | some c =>
        rw [hn] at hnid
        simp at hnid
        subst hnid
        intro hceq
        obtain ⟨hcmem, hctier⟩ := nextCandidate_status hn
        have hcst : c.status = "Completed" := setStatus_status c hcmem hceq
        rcases hctier with ht | ht
        · rcases inNewTier_iff.mp ht with hs | hs <;> rw [hcst] at hs <;> simp at hs
        · rcases inActiveTier_iff.mp ht with hs | hs <;> rw [hcst] at hs <;> simp at hs
    · exact Except.noConfusion h

/-- Witness for claim C4: completing mission A in a concrete store; the next
mission reported is B, not the just-completed A. -/
theorem claim_C4_complete_reports_next_witness :
    (⟨"A", "Completed", "Code Agent", "done", some "notes"⟩ : MissionEvent)
        = ⟨"A", "Completed", "Code Agent", "done", some "notes"⟩ ∧
      setStatus [⟨1, "A", "In Progress"⟩, ⟨2, "B", "Queued"⟩] "A" "Completed"
        = setStatus [⟨1, "A", "In Progress"⟩, ⟨2, "B", "Queued"⟩] "A" "Completed" ∧
      (some "B" : Option String)
        = (nextCandidate (setStatus [⟨1, "A", "In Progress"⟩, ⟨2, "B", "Queued"⟩]
            "A" "Completed")).map Mission.id ∧
      ∀ nid, (some "B" : Option String) = some nid → nid ≠ "A" :=
  claim_C4_complete_reports_next
    [⟨1, "A", "In Progress"⟩, ⟨2, "B", "Queued"⟩]
    (setStatus [⟨1, "A", "In Progress"⟩, ⟨2, "B", "Queued"⟩] "A" "Completed")
    "A" "Code Agent" "done" "notes"
    ⟨"A", "Completed", "Code Agent", "done", some "notes"⟩ (some "B") rfl

theorem startPhase_spec (env : Env) (mid : String) (t : Trace) :
    ((startPhase env mid t).1 = 0 ∨ (startPhase env mid t).1 = 1) ∧
    (startPhase env mid t).2.clientCreated = t.clientCreated ∧
    (startPhase env mid t).2.clientClosed = t.clientClosed ∧
    ((startPhase env mid t).1 = 0 → (startPhase env mid t).2.errors = t.errors) ∧
    ((startPhase env mid t).1 = 1 → ∃ e, (startPhase env mid t).2.errors = t.errors ++ [e]) ∧
    countStartCalls (startPhase env mid t).2.actions ≤ countStartCalls t.actions + 1 ∧
    countCompleteCalls (startPhase env mid t).2.actions ≤ countCompleteCalls t.actions + 1 ∧
    (∀ i, RunAction.completeCall i ∈ (startPhase env mid t).2.actions →
        RunAction.completeCall i ∈ t.actions ∨
        (startPhase env mid t).2.runtimeClosed = true) ∧
    (∀ i, t.completedId = none → (startPhase env mid t).2.completedId = some i →
        i = mid ∧ (startPhase env mid t).2.summaryUsed = some (work_summary i) ∧
        (startPhase env mid t).2.startedId = some i) ∧
    ((startPhase env mid t).1 = 0 → ∃ v next,
        (startPhase env mid t).2.actions = t.actions ++
          [RunAction.startCall mid, RunAction.verifyNext v, RunAction.workExec mid,
           RunAction.completeCall mid, RunAction.reportNext next]) := by
  cases hre : env.runtimeError with
  | some e =>
    have heq : startPhase env mid t =
        (1,
          { t with
            runtimeCreated := true,
            errors := t.errors ++ [e] }) := by
      unfold startPhase
      rw [hre]
    rw [heq]
    refine ⟨Or.inr rfl, rfl, rfl, by simp, fun _ => ⟨e, rfl⟩, ?_, ?_, ?_, ?_, by simp⟩
    · simp [countStartCalls]
    · simp [countCompleteCalls]
    · intro i hi
      exact Or.inl hi
    · intro i h1 h2
      simp [h1] at h2
  | none =>
    cases hsm : start_mission env.store mid "Code Agent" ("Starting mission " ++ mid) with
    | error e =>
      have heq : startPhase env mid t =
          (1,
            { t with
              runtimeCreated := true,
              actions := t.actions ++ [RunAction.startCall mid],
              errors := t.errors ++ [e] }) := by
        unfold startPhase
        rw [hre, hsm]
      rw [heq]
      refine ⟨Or.inr rfl, rfl, rfl, by simp, fun _ => ⟨e, rfl⟩, ?_, ?_, ?_, ?_, by simp⟩
      · simp [countStartCalls, List.countP_append, List.countP_cons, isStartCall]
      · simp [countCompleteCalls, List.countP_append, List.countP_cons, isCompleteCall]
      · intro i hi
        rcases List.mem_append.mp hi with hi | hi
        · exact Or.inl hi
        · exact absurd hi (by simp)
      · intro i h1 h2
        simp [h1] at h2
    | ok p =>
      obtain ⟨store1, ev⟩ := p
      cases hve : env.verifyError with
      | some e =>
        have heq : startPhase env mid t =
            (1,
              { t with
                runtimeCreated := true,
                actions := t.actions ++ [RunAction.startCall mid],
                startedId := some mid,
                errors := t.errors ++ [e] }) := by
          unfold startPhase
          rw [hre, hsm, hve]
        rw [heq]
        refine ⟨Or.inr rfl, rfl, rfl, by simp, fun _ => ⟨e, rfl⟩, ?_, ?_, ?_, ?_, by simp⟩
        · simp [countStartCalls, List.countP_append, List.countP_cons, isStartCall]
        · simp [countCompleteCalls, List.countP_append, List.countP_cons, isCompleteCall]
        · intro i hi
          rcases List.mem_append.mp hi with hi | hi
          · exact Or.inl hi
          · exact absurd hi (by simp)
        · intro i h1 h2
          simp [h1] at h2
      | none =>
        cases hcm : complete_mission store1 mid "Code Agent" (work_summary mid)
            ("Mission " ++ mid ++ " completed successfully. " ++ work_summary mid) with
        | error e =>
          have heq : startPhase env mid t =
              (1,
                { t with
                  runtimeCreated := true,
                  runtimeClosed := true,
                  actions := (((t.actions ++ [RunAction.startCall mid]) ++
                    [RunAction.verifyNext ((nextCandidate store1).map Mission.id)]) ++
                    [RunAction.workExec mid]) ++ [RunAction.completeCall mid],
                  errors := t.errors ++ [e],
                  startedId := some mid }) := by
            unfold startPhase workPhase completePhase
            simp only [hre, hsm, hve, hcm]
          rw [heq]
          refine ⟨Or.inr rfl, rfl, rfl, by simp, fun _ => ⟨e, rfl⟩, ?_, ?_, ?_, ?_, by simp⟩
          · simp [countStartCalls, List.countP_append, List.countP_cons, isStartCall]
          · simp [countCompleteCalls, List.countP_append, List.countP_cons, isCompleteCall]
          · intro i hi
            exact Or.inr rfl
          · intro i h1 h2
            simp [h1] at h2
        | ok q =>
          obtain ⟨st2, ev2, next⟩ := q
          have heq : startPhase env mid t =
              (0,
                { t with
                  runtimeCreated := true,
                  runtimeClosed := true,
                  actions := (((t.actions ++ [RunAction.startCall mid]) ++
                    [RunAction.verifyNext ((nextCandidate store1).map Mission.id)]) ++
                    [RunAction.workExec mid]) ++
                    [RunAction.completeCall mid, RunAction.reportNext next],
                  startedId := some mid,
                  completedId := some mid,
                  summaryUsed := some (work_summary mid) }) := by
            unfold startPhase workPhase completePhase
            simp only [hre, hsm, hve, hcm]
          rw [heq]
          refine ⟨Or.inl rfl, rfl, rfl, fun _ => rfl, by simp, ?_, ?_, ?_, ?_, ?_⟩
          · simp [countStartCalls, List.countP_append, List.countP_cons, isStartCall]
          · simp [countCompleteCalls, List.countP_append, List.countP_cons, isCompleteCall]
          · intro i hi
            exact Or.inr rfl
          · intro i h1 h2
            simp at h2
            subst h2
            exact ⟨rfl, rfl, rfl⟩
          · intro h0
            exact ⟨(nextCandidate store1).map Mission.id, next, by simp⟩

theorem mainRun_spec (env : Env) :
    ((mainRun env).1 = 0 ∨ (mainRun env).1 = 1) ∧
    ((mainRun env).1 = 0 → (mainRun env).2.errors = []) ∧
    countStartCalls (mainRun env).2.actions ≤ 1 ∧
    countCompleteCalls (mainRun env).2.actions ≤ 1 ∧
    (env.connectError = none → env.health.ok = true →
        (mainRun env).2.clientClosed = true) ∧
    (∀ i, RunAction.completeCall i ∈ (mainRun env).2.actions →
        (mainRun env).2.runtimeClosed = true) ∧
    (∀ i, (mainRun env).2.completedId = some i →
        (mainRun env).2.summaryUsed = some (work_summary i)) ∧
    ((mainRun env).1 = 0 → ∃ mid v next,
        (mainRun env).2.actions =
            [RunAction.healthProbe, RunAction.selectNew, RunAction.startCall mid,
             RunAction.verifyNext v, RunAction.workExec mid, RunAction.completeCall mid,
             RunAction.reportNext next] ∨
        (mainRun env).2.actions =
            [RunAction.healthProbe, RunAction.selectNew, RunAction.selectActive,
             RunAction.startCall mid, RunAction.verifyNext v, RunAction.workExec mid,
             RunAction.completeCall mid, RunAction.reportNext next]) := by
  cases hce : env.connectError with
  | some e =>
    have heq : mainRun env = (1, { emptyTrace with errors := [e] }) := by
      unfold mainRun
      rw [hce]
    rw [heq]
    refine ⟨Or.inr rfl, by simp, by simp [countStartCalls, isStartCall, emptyTrace],
      by simp [countCompleteCalls, isCompleteCall, emptyTrace], ?_, by simp [emptyTrace], ?_, by simp⟩
    · intro h1 h2
      exact Option.noConfusion h1
    · intro i hi
      simp [emptyTrace] at hi
  | none =>
    cases hok : env.health.ok with
    | false =>
      have heq : mainRun env =
          (1,
            { emptyTrace with
              clientCreated := true,
              actions := [RunAction.healthProbe],
              errors := [env.health.message] }) := by
        unfold mainRun
        rw [hce, hok]
        rfl
      rw [heq]
      refine ⟨Or.inr rfl, by simp, by simp [countStartCalls, isStartCall, emptyTrace],
      by simp [countCompleteCalls, isCompleteCall, emptyTrace], ?_, by simp [emptyTrace], ?_, by simp⟩
      · intro h1 h2
        exact Bool.noConfusion h2
      · intro i hi
        simp [emptyTrace] at hi
    | true =>
      cases hnq : env.newQueryError with
      | some e =>
        have heq : mainRun env =
            (1,
              { emptyTrace with
                clientCreated := true,
                clientClosed := true,
                actions := [RunAction.healthProbe],
                errors := [e] }) := by
          unfold mainRun selectionPhase
          rw [hce, hok, hnq]
          rfl
        rw [heq]
        refine ⟨Or.inr rfl, by simp, by simp [countStartCalls, isStartCall, emptyTrace],
          by simp [countCompleteCalls, isCompleteCall, emptyTrace], fun _ _ => rfl,
          by simp [emptyTrace], ?_, by simp⟩
        intro i hi
        simp [emptyTrace] at hi
      | none =>
        cases hq : newWorkQuery env.store with
        | some m =>
          have heq : mainRun env =
              startPhase env m.id
                { emptyTrace with
                  clientCreated := true,
                  clientClosed := true,
                  actions := [RunAction.healthProbe, RunAction.selectNew] } := by
            unfold mainRun selectionPhase
            rw [hce, hok, hnq, hq]
            rfl
          rw [heq]
          have hs := startPhase_spec env m.id
            { emptyTrace with
              clientCreated := true,
              clientClosed := true,
              actions := [RunAction.healthProbe, RunAction.selectNew] }
          obtain ⟨h1, h2, h3, h4, h5, h6, h7, h8, h9, h10⟩ := hs
          refine ⟨h1, ?_, ?_, ?_, fun _ _ => h3, ?_, ?_, ?_⟩
          · intro h0
            rw [h4 h0]
            rfl
          · exact le_trans h6 (by decide)
          · exact le_trans h7 (by decide)
          · intro i hi
            rcases h8 i hi with hmem | hcl
            · exact absurd hmem (by simp)
            · exact hcl
          · intro i hi
            exact (h9 i rfl hi).2.1
          · intro h0
            obtain ⟨v, next, ha⟩ := h10 h0
            exact ⟨m.id, v, next, Or.inl (by rw [ha]; rfl)⟩
        | none =>
          cases haq : env.activeQueryError with
          | some e =>
            have heq : mainRun env =
                (1,
                  { emptyTrace with
                    clientCreated := true,
                    clientClosed := true,
                    actions := [RunAction.healthProbe, RunAction.selectNew],
                    errors := [e] }) := by
              unfold mainRun selectionPhase
              rw [hce, hok, hnq, hq, haq]
              rfl
            rw [heq]
            refine ⟨Or.inr rfl, by simp, by simp [countStartCalls, isStartCall, emptyTrace],
              by simp [countCompleteCalls, isCompleteCall, emptyTrace], fun _ _ => rfl,
              by simp [emptyTrace], ?_, by simp⟩
            intro i hi
            simp [emptyTrace] at hi
          | none =>
            cases haq2 : activeQuery env.store with
            | some m =>
              have heq : mainRun env =
                  startPhase env m.id
                    { emptyTrace with
                      clientCreated := true,
                      clientClosed := true,
                      actions := [RunAction.healthProbe, RunAction.selectNew,
                        RunAction.selectActive] } := by
                unfold mainRun selectionPhase
                rw [hce, hok, hnq, hq, haq, haq2]
                rfl
              rw [heq]
              have hs := startPhase_spec env m.id
                { emptyTrace with
                  clientCreated := true,
                  clientClosed := true,
                  actions := [RunAction.healthProbe, RunAction.selectNew,
                    RunAction.selectActive] }
              obtain ⟨h1, h2, h3, h4, h5, h6, h7, h8, h9, h10⟩ := hs
              refine ⟨h1, ?_, ?_, ?_, fun _ _ => h3, ?_, ?_, ?_⟩
              · intro h0
                rw [h4 h0]
                rfl
              · exact le_trans h6 (by decide)
              · exact le_trans h7 (by decide)
              · intro i hi
                rcases h8 i hi with hmem | hcl
                · exact absurd hmem (by simp)
                · exact hcl
              · intro i hi
                exact (h9 i rfl hi).2.1
              · intro h0
                obtain ⟨v, next, ha⟩ := h10 h0
                exact ⟨m.id, v, next, Or.inr (by rw [ha]; rfl)⟩
            | none =>
              have heq : mainRun env =
                  (1,
                    { emptyTrace with
                      clientCreated := true,
                      clientClosed := true,
                      actions := [RunAction.healthProbe, RunAction.selectNew,
                        RunAction.selectActive] }) := by
                unfold mainRun selectionPhase
                rw [hce, hok, hnq, hq, haq, haq2]
                rfl
              rw [heq]
              refine ⟨Or.inr rfl, by simp, by simp [countStartCalls, isStartCall, emptyTrace],
                by simp [countCompleteCalls, isCompleteCall, emptyTrace], fun _ _ => rfl,
                by simp [emptyTrace], ?_, by simp⟩
              intro i hi
              simp [emptyTrace] at hi

/-- Claim C3: when no mission has one of the four tier statuses, candidate
selection yields nothing and the run reports failure without starting or
completing any mission. -/
theorem claim_C3_empty_selection (env : Env)
    (hce : env.connectError = none) (hok : env.health.ok = true)
    (hnq : env.newQueryError = none) (haq : env.activeQueryError = none)
    (hstore : ∀ m ∈ env.store,
      m.status ∉ newWorkStatusFilter ∧ m.status ∉ activeStatusFilter) :
    nextCandidate env.store = none ∧
    (mainRun env).1 = 1 ∧
    (mainRun env).2.startedId = none ∧
    (mainRun env).2.completedId = none ∧
    countStartCalls (mainRun env).2.actions = 0 ∧
    countCompleteCalls (mainRun env).2.actions = 0 := by
  have hfn : env.store.filter inNewTier = [] := by
    rw [List.filter_eq_nil_iff]
    intro m hm
    have h2 := (hstore m hm).1
    simp [newWorkStatusFilter] at h2
    simp [inNewTier_iff, h2]
  have hfa : env.store.filter inActiveTier = [] := by
    rw [List.filter_eq_nil_iff]
    intro m hm
    have h2 := (hstore m hm).2
    simp [activeStatusFilter] at h2
    simp [inActiveTier_iff, h2]
  have hq : newWorkQuery env.store = none := by
    unfold newWorkQuery
    rw [hfn]
    rfl
  have ha2 : activeQuery env.store = none := by
    unfold activeQuery
    rw [hfa]
    rfl
  have hnone : nextCandidate env.store = none := by
    unfold nextCandidate
    rw [hq]
    exact ha2
  have heq : mainRun env =
      (1,
        { emptyTrace with
          clientCreated := true,
          clientClosed := true,
          actions := [RunAction.healthProbe, RunAction.selectNew,
            RunAction.selectActive] }) := by
    unfold mainRun selectionPhase
    rw [hce, hok, hnq, hq, haq, ha2]
    rfl
  rw [heq]
  exact ⟨hnone, rfl, rfl, rfl, by decide, by decide⟩

/-- Witness for claim C3 at a store holding only a Completed mission. -/
theorem claim_C3_empty_selection_witness :
    nextCandidate envNoMissionCase.store = none ∧
    (mainRun envNoMissionCase).1 = 1 ∧
    (mainRun envNoMissionCase).2.startedId = none ∧
    (mainRun envNoMissionCase).2.completedId = none ∧
    countStartCalls (mainRun envNoMissionCase).2.actions = 0 ∧
    countCompleteCalls (mainRun envNoMissionCase).2.actions = 0 :=
  claim_C3_empty_selection envNoMissionCase rfl rfl rfl rfl (by decide)

/-- Claim C5: a run returns 0 or 1, returns 0 only when no error was caught,
returns 1 whenever an error was caught, and never retries the start or
complete call. -/
theorem claim_C5_errors_abort (env : Env) :
    ((mainRun env).1 = 0 ∨ (mainRun env).1 = 1) ∧
    ((mainRun env).1 = 0 → (mainRun env).2.errors = []) ∧
    ((mainRun env).2.errors ≠ [] → (mainRun env).1 = 1) ∧
    countStartCalls (mainRun env).2.actions ≤ 1 ∧
    countCompleteCalls (mainRun env).2.actions ≤ 1 := by
  obtain ⟨h1, h2, h3, h4, -, -, -, -⟩ := mainRun_spec env
  refine ⟨h1, h2, ?_, h3, h4⟩
  intro he
  rcases h1 with h0 | h0
  · exact absurd (h2 h0) he
  · exact h0

/-- Witness for claim C5: the failed health probe aborts with outcome 1. -/
theorem claim_C5_errors_abort_witness :
    (mainRun envHealthFailCase).1 = 1 :=
  (claim_C5_errors_abort envHealthFailCase).2.2.1 (by decide)

/-- Counterexample to claim C6: when the health probe fails the client was
created but is never closed; when the runtime raises before the start call
the runtime was created but is never closed; and when the verification read
raises after a successful start (line 102, inside the step-3 try with no
finally) the run exits with the mission started and the runtime still
unclosed. -/
theorem claim_C6_counterexample :
    ((mainRun envHealthFailCase).2.clientCreated = true ∧
      (mainRun envHealthFailCase).2.clientClosed = false ∧
      (mainRun envHealthFailCase).1 = 1) ∧
    ((mainRun envRuntimeFailCase).2.runtimeCreated = true ∧
      (mainRun envRuntimeFailCase).2.runtimeClosed = false ∧
      (mainRun envRuntimeFailCase).1 = 1) ∧
    ((mainRun envVerifyFailCase).2.startedId = some "A" ∧
      (mainRun envVerifyFailCase).2.runtimeCreated = true ∧
      (mainRun envVerifyFailCase).2.runtimeClosed = false ∧
      (mainRun envVerifyFailCase).1 = 1) := by
  decide

/-- Claim C6 amended: once the health check has passed, the selection client
is closed on every exit path; the lifecycle runtime is closed on every exit
path that reaches the complete phase (every run whose action list contains a
complete call); exits before those phases release nothing. -/
theorem claim_C6_amended_release (env : Env)
    (hce : env.connectError = none) (hok : env.health.ok = true) :
    (mainRun env).2.clientClosed = true ∧
    (∀ i, RunAction.completeCall i ∈ (mainRun env).2.actions →
      (mainRun env).2.runtimeClosed = true) := by
  obtain ⟨-, -, -, -, h5, h6, -, -⟩ := mainRun_spec env
  exact ⟨h5 hce hok, h6⟩

/-- Witness for the amended claim C6 at the successful run, whose trace
contains a complete call. -/
theorem claim_C6_amended_release_witness :
    (mainRun envSuccessCase).2.clientClosed = true ∧
    (∀ i, RunAction.completeCall i ∈ (mainRun envSuccessCase).2.actions →
      (mainRun envSuccessCase).2.runtimeClosed = true) :=
  claim_C6_amended_release envSuccessCase rfl rfl

/-- Claim C7: a run performs at most one start call and one complete call,
and a successful run performs exactly the sequence health probe, selection,
start, verification, work, complete, next-candidate report. -/
theorem claim_C7_single_pass (env : Env) :
    countStartCalls (mainRun env).2.actions ≤ 1 ∧
    countCompleteCalls (mainRun env).2.actions ≤ 1 ∧
    ((mainRun env).1 = 0 → ∃ mid v next,
        (mainRun env).2.actions =
            [RunAction.healthProbe, RunAction.selectNew, RunAction.startCall mid,
             RunAction.verifyNext v, RunAction.workExec mid, RunAction.completeCall mid,
             RunAction.reportNext next] ∨
        (mainRun env).2.actions =
            [RunAction.healthProbe, RunAction.selectNew, RunAction.selectActive,
             RunAction.startCall mid, RunAction.verifyNext v, RunAction.workExec mid,
             RunAction.completeCall mid, RunAction.reportNext next]) := by
  obtain ⟨-, -, h3, h4, -, -, -, h8⟩ := mainRun_spec env
  exact ⟨h3, h4, h8⟩

/-- Witness for claim C7 at the successful run. -/
theorem claim_C7_single_pass_witness :
    ∃ mid v next,
        (mainRun envSuccessCase).2.actions =
            [RunAction.healthProbe, RunAction.selectNew, RunAction.startCall mid,
             RunAction.verifyNext v, RunAction.workExec mid, RunAction.completeCall mid,
             RunAction.reportNext next] ∨
        (mainRun envSuccessCase).2.actions =
            [RunAction.healthProbe, RunAction.selectNew, RunAction.selectActive,
             RunAction.startCall mid, RunAction.verifyNext v, RunAction.workExec mid,
             RunAction.completeCall mid, RunAction.reportNext next] :=
  (claim_C7_single_pass envSuccessCase).2.2 (by decide)

/-- Claim C10: the summary passed to complete is the pure function
`work_summary` of the completed mission id alone, so two runs completing the
same id use the same summary, and the function applies its substring tests
in fixed precedence order. -/
theorem claim_C10_summary_pure (env env2 : Env) (i : String)
    (h : (mainRun env).2.completedId = some i)
    (h2 : (mainRun env2).2.completedId = some i) :
    (mainRun env).2.summaryUsed = some (work_summary i) ∧
    (mainRun env).2.summaryUsed = (mainRun env2).2.summaryUsed ∧
    (strContains i.toLower "foundation" = true →
      work_summary i = "Implemented foundation utilities with 100% test coverage") ∧
    (strContains i.toLower "foundation" = false →
      strContains i.toLower "data-protocol" = true →
      work_summary i = "Completed data protocol implementation with validation") ∧
    (strContains i.toLower "foundation" = false →
      strContains i.toLower "data-protocol" = false →
      strContains i.toLower "test-suite" = true →
      work_summary i = "Completed test suite with 100% coverage") ∧
    (strContains i.toLower "foundation" = false →
      strContains i.toLower "data-protocol" = false →
      strContains i.toLower "test-suite" = false →
      work_summary i = "Completed mission work") := by
  have g1 := (mainRun_spec env).2.2.2.2.2.2.1 i h
  have g2 := (mainRun_spec env2).2.2.2.2.2.2.1 i h2
  refine ⟨g1, by rw [g1, g2], ?_, ?_, ?_, ?_⟩
  · intro hf
    simp [work_summary, hf]
  · intro hf hd
    simp [work_summary, hf, hd]
  · intro hf hd ht
    simp [work_summary, hf, hd, ht]
  · intro hf hd ht
    simp [work_summary, hf, hd, ht]

/-- Witness for claim C10: two different environments complete the mission
"mission-foundation-1" and use the same foundation summary. -/
theorem claim_C10_summary_pure_witness :
    (mainRun envSuccessCase).2.summaryUsed = some (work_summary "mission-foundation-1") ∧
    (mainRun envSuccessCase).2.summaryUsed = (mainRun envSuccessCase2).2.summaryUsed ∧
    (strContains (String.toLower "mission-foundation-1") "foundation" = true →
      work_summary "mission-foundation-1" =
        "Implemented foundation utilities with 100% test coverage") ∧
    (strContains (String.toLower "mission-foundation-1") "foundation" = false →
      strContains (String.toLower "mission-foundation-1") "data-protocol" = true →
      work_summary "mission-foundation-1" =
        "Completed data protocol implementation with validation") ∧
    (strContains (String.toLower "mission-foundation-1") "foundation" = false →
      strContains (String.toLower "mission-foundation-1") "data-protocol" = false →
      strContains (String.toLower "mission-foundation-1") "test-suite" = true →
      work_summary "mission-foundation-1" = "Completed test suite with 100% coverage") ∧
    (strContains (String.toLower "mission-foundation-1") "foundation" = false →
      strContains (String.toLower "mission-foundation-1") "data-protocol" = false →
      strContains (String.toLower "mission-foundation-1") "test-suite" = false →
      work_summary "mission-foundation-1" = "Completed mission work") :=
  claim_C10_summary_pure envSuccessCase envSuccessCase2 "mission-foundation-1"
    (by decide) (by decide)
